import Mathlib

/-!
Shallow embedding of `src/ros_filter_utilities.cpp` from the
DynoRobotics/robot_localization repository, together with the tf2 math
routines it calls (`tf2::Quaternion::setRPY`, `tf2::Matrix3x3::setRotation`,
`tf2::Matrix3x3::getRotation`, `tf2::Matrix3x3::getEulerYPR`), idealised
over the real numbers.  Time values are modelled as rationals: the code
converts `rclcpp::Time`/`rclcpp::Duration` to `tf2::TimePoint`/`tf2::Duration`
through seconds (lines 149-150), a conversion that is the identity on the
underlying instant, so a single numeric time type suffices.  The transform
store (`tf2_ros::Buffer`) is external: it is modelled as a pair of oracle
functions, with a `lookupTransform` result of `none` standing for a thrown
`tf2::TransformException`.  Diagnostic emission is modelled as the list of
warning requests the function hands to the (external, rate-limiting)
logging channel, and store consultation as the list of queries issued.
-/

namespace RobotLocalization

open Real

/-- Embedding of `tf2::Vector3` (three real components). -/
structure Vector3 where
  x : ℝ
  y : ℝ
  z : ℝ

/-- Embedding of `tf2::Quaternion` (x, y, z, w components). -/
structure Quaternion where
  x : ℝ
  y : ℝ
  z : ℝ
  w : ℝ

/-- `tf2::Quaternion::length2`: squared norm of the quaternion. -/
def Quaternion.length2 (q : Quaternion) : ℝ :=
  q.x ^ 2 + q.y ^ 2 + q.z ^ 2 + q.w ^ 2

/-- Componentwise scaling of a quaternion (used to relate a quaternion to
the one `getRotation` re-extracts from its rotation matrix, which can
differ by a sign). -/
def Quaternion.scale (c : ℝ) (q : Quaternion) : Quaternion :=
  ⟨c * q.x, c * q.y, c * q.z, c * q.w⟩

/-- `tf2::Quaternion::setRPY(roll, pitch, yaw)`: builds the quaternion from
half-angle sines and cosines, exactly as in the tf2 source. -/
noncomputable def Quaternion.setRPY (roll pitch yaw : ℝ) : Quaternion :=
  let halfYaw := yaw * 0.5
  let halfPitch := pitch * 0.5
  let halfRoll := roll * 0.5
  let cosYaw := Real.cos halfYaw
  let sinYaw := Real.sin halfYaw
  let cosPitch := Real.cos halfPitch
  let sinPitch := Real.sin halfPitch
  let cosRoll := Real.cos halfRoll
  let sinRoll := Real.sin halfRoll
  { x := sinRoll * cosPitch * cosYaw - cosRoll * sinPitch * sinYaw
    y := cosRoll * sinPitch * cosYaw + sinRoll * cosPitch * sinYaw
    z := cosRoll * cosPitch * sinYaw - sinRoll * sinPitch * cosYaw
    w := cosRoll * cosPitch * cosYaw + sinRoll * sinPitch * sinYaw }

/-- Embedding of `tf2::Matrix3x3`, with one field per entry; `mIJ` is row
`I`, column `J` (`m_el[I][J]` in tf2). -/
structure Matrix3x3 where
  m00 : ℝ
  m01 : ℝ
  m02 : ℝ
  m10 : ℝ
  m11 : ℝ
  m12 : ℝ
  m20 : ℝ
  m21 : ℝ
  m22 : ℝ

/-- Row-by-column product of two 3x3 matrices (used only to state the
Euler-convention refinement; the tf2 code itself never multiplies). -/
def Matrix3x3.mul (A B : Matrix3x3) : Matrix3x3 where
  m00 := A.m00 * B.m00 + A.m01 * B.m10 + A.m02 * B.m20
  m01 := A.m00 * B.m01 + A.m01 * B.m11 + A.m02 * B.m21
  m02 := A.m00 * B.m02 + A.m01 * B.m12 + A.m02 * B.m22
  m10 := A.m10 * B.m00 + A.m11 * B.m10 + A.m12 * B.m20
  m11 := A.m10 * B.m01 + A.m11 * B.m11 + A.m12 * B.m21
  m12 := A.m10 * B.m02 + A.m11 * B.m12 + A.m12 * B.m22
  m20 := A.m20 * B.m00 + A.m21 * B.m10 + A.m22 * B.m20
  m21 := A.m20 * B.m01 + A.m21 * B.m11 + A.m22 * B.m21
  m22 := A.m20 * B.m02 + A.m21 * B.m12 + A.m22 * B.m22

/-- The identity matrix, as set by `tf2::Matrix3x3::setIdentity`. -/
def Matrix3x3.identityM : Matrix3x3 :=
  ⟨1, 0, 0, 0, 1, 0, 0, 0, 1⟩

/-- `tf2::Matrix3x3::setRotation(q)` (also the `Matrix3x3(const Quaternion&)`
constructor): rotation matrix of a (not necessarily unit) quaternion,
normalising by `s = 2 / length2`. -/
noncomputable def Matrix3x3.setRotation (q : Quaternion) : Matrix3x3 :=
  let d := q.length2
  let s := 2 / d
  let xs := q.x * s
  let ys := q.y * s
  let zs := q.z * s
  let wx := q.w * xs
  let wy := q.w * ys
  let wz := q.w * zs
  let xx := q.x * xs
  let xy := q.x * ys
  let xz := q.x * zs
  let yy := q.y * ys
  let yz := q.y * zs
  let zz := q.z * zs
  { m00 := 1 - (yy + zz), m01 := xy - wz, m02 := xz + wy
    m10 := xy + wz, m11 := 1 - (xx + zz), m12 := yz - wx
    m20 := xz - wy, m21 := yz + wx, m22 := 1 - (xx + yy) }

/-- The two-argument arctangent, as computed by the C library `atan2`
called from tf2: the argument of the complex number `x + y*i`. -/
noncomputable def atan2 (y x : ℝ) : ℝ :=
  Complex.arg ⟨x, y⟩

/-- `tf2::Matrix3x3::getRotation(q)`: extracts a quaternion from the
rotation matrix.  The branch on the largest diagonal entry (`i`, with
`j = (i+1)%3`, `k = (i+2)%3` in the tf2 source) is unrolled into explicit
cases. -/
noncomputable def Matrix3x3.getRotation (m : Matrix3x3) : Quaternion :=
  let trace := m.m00 + m.m11 + m.m22
  if 0 < trace then
    let s := Real.sqrt (trace + 1)
    let s' := 0.5 / s
    { x := (m.m21 - m.m12) * s'
      y := (m.m02 - m.m20) * s'
      z := (m.m10 - m.m01) * s'
      w := s * 0.5 }
  else
    if m.m00 < m.m11 then
      if m.m11 < m.m22 then
        -- i = 2, j = 0, k = 1
        let s := Real.sqrt (m.m22 - m.m00 - m.m11 + 1)
        let s' := 0.5 / s
        { x := (m.m02 + m.m20) * s'
          y := (m.m12 + m.m21) * s'
          z := s * 0.5
          w := (m.m10 - m.m01) * s' }
      else
        -- i = 1, j = 2, k = 0
        let s := Real.sqrt (m.m11 - m.m22 - m.m00 + 1)
        let s' := 0.5 / s
        { x := (m.m01 + m.m10) * s'
          y := s * 0.5
          z := (m.m21 + m.m12) * s'
          w := (m.m02 - m.m20) * s' }
    else
      if m.m00 < m.m22 then
        -- i = 2, j = 0, k = 1
        let s := Real.sqrt (m.m22 - m.m00 - m.m11 + 1)
        let s' := 0.5 / s
        { x := (m.m02 + m.m20) * s'
          y := (m.m12 + m.m21) * s'
          z := s * 0.5
          w := (m.m10 - m.m01) * s' }
      else
        -- i = 0, j = 1, k = 2
        let s := Real.sqrt (m.m00 - m.m11 - m.m22 + 1)
        let s' := 0.5 / s
        { x := s * 0.5
          y := (m.m10 + m.m01) * s'
          z := (m.m20 + m.m02) * s'
          w := (m.m21 - m.m12) * s' }

/-- `tf2::Matrix3x3::getRPY` with `solution_number = 1`, i.e. solution 1 of
`getEulerYPR`: returns `(roll, pitch, yaw)`. -/
noncomputable def Matrix3x3.getRPY (m : Matrix3x3) : ℝ × ℝ × ℝ :=
  if 1 ≤ |m.m20| then
    if m.m20 < 0 then
      (atan2 m.m01 m.m02, Real.pi / 2, 0)
    else
      (atan2 (-m.m01) (-m.m02), -(Real.pi / 2), 0)
  else
    let pitch := -Real.arcsin m.m20
    (atan2 (m.m21 / Real.cos pitch) (m.m22 / Real.cos pitch),
      pitch,
      atan2 (m.m10 / Real.cos pitch) (m.m00 / Real.cos pitch))

/-- Embedding of `tf2::Transform`: a basis matrix and an origin, exactly
the two fields tf2 stores (`setRotation` stores the matrix of the
quaternion; `getRotation` re-extracts a quaternion from the matrix). -/
structure Transform where
  basis : Matrix3x3
  origin : Vector3

/-- `tf2::Transform::setIdentity()`: identity basis, zero origin. -/
def Transform.identityT : Transform :=
  ⟨Matrix3x3.identityM, ⟨0, 0, 0⟩⟩

/-- `tf2::Transform::getRotation()`. -/
noncomputable def Transform.getRotation (t : Transform) : Quaternion :=
  t.basis.getRotation

/-- The wire form `geometry_msgs::msg::Transform` held by the store:
a translation and a quaternion. -/
structure MsgTransform where
  translation : Vector3
  rotation : Quaternion

/-- `tf2::fromMsg(msg, transform)`: builds the `tf2::Transform` whose basis
is the rotation matrix of the message quaternion and whose origin is the
message translation. -/
noncomputable def fromMsg (msg : MsgTransform) : Transform :=
  ⟨Matrix3x3.setRotation msg.rotation, msg.translation⟩

/-- The `tf2::TimePointZero` sentinel ("latest available"). -/
def timePointZero : ℚ := 0

/-- The external `tf2_ros::Buffer`, as the two oracles the code consults.
`lookupTransform` answering `none` models a thrown
`tf2::TransformException`. -/
structure Buffer where
  canTransform : String → String → ℚ → ℚ → Bool
  lookupTransform : String → String → ℚ → ℚ → Option MsgTransform

/-- One query issued to the external store. -/
inductive StoreQuery where
  | canT (target_frame source_frame : String) (time tolerance : ℚ)
  | lookup (target_frame source_frame : String) (time tolerance : ℚ)
deriving DecidableEq

/-- One warning request handed to the (externally rate-limited) logging
channel: the message text and the throttle window in milliseconds. -/
structure Diagnostic where
  message : String
  throttleMs : ℕ
deriving DecidableEq

/-- The message of the line-200 failure warning: it names both frames. -/
def failMessage (target_frame source_frame : String) : String :=
  "Could not transform from " ++ source_frame ++ " to " ++ target_frame

/-- Result of `lookupTransformSafe`: the returned `bool`, the final value
of the in-out parameter `target_frame_trans`, the warning requests handed
to the logging channel, and the queries issued to the store. -/
structure LookupResult where
  success : Bool
  target_frame_trans : Transform
  diags : List Diagnostic
  queries : List StoreQuery

/-- Lines 169-203 of `lookupTransformSafe`: the latest-available fallback
(query at `tf2::TimePointZero`) followed, on failure, by the throttled
line-200 warning.  `qs` holds the store queries already issued; note that
on fallback success the stale-transform warning of the original code is
commented out in this source (lines 179-182), so no diagnostic is
requested there. -/
noncomputable def latestFallback (buffer : Buffer)
    (target_frame source_frame : String) (duration_tf : ℚ)
    (target_frame_trans : Transform) (silent : Bool)
    (qs : List StoreQuery) : LookupResult :=
  let failResult : List StoreQuery → LookupResult := fun qs' =>
    { success := false
      target_frame_trans := target_frame_trans
      diags := if silent then [] else [⟨failMessage target_frame source_frame, 3000⟩]
      queries := qs' }
  let q3 := StoreQuery.canT target_frame source_frame timePointZero duration_tf
  if buffer.canTransform target_frame source_frame timePointZero duration_tf then
    let q4 := StoreQuery.lookup target_frame source_frame timePointZero duration_tf
    match buffer.lookupTransform target_frame source_frame timePointZero duration_tf with
    | some msg =>
        -- the "using latest instead" warning (lines 179-182) is commented out
        { success := true
          target_frame_trans := fromMsg msg
          diags := []
          queries := qs ++ [q3, q4] }
    | none =>
        -- the catch-block warning (lines 186-189) is commented out;
        -- control falls through to the line-200 warning
        failResult (qs ++ [q3, q4])
  else
    -- the else-branch warning (lines 192-195) is commented out;
    -- control falls through to the line-200 warning
    failResult (qs ++ [q3])

/-- `lookupTransformSafe(node, buffer, target_frame, source_frame, time,
duration, target_frame_trans, silent)` (lines 131-204).  The `node`
parameter only supplies the clock and logger of the external logging
channel and has no bearing on the returned data, so it is not modelled. -/
noncomputable def lookupTransformSafe (buffer : Buffer)
    (target_frame source_frame : String) (time : ℚ) (duration : ℚ)
    (target_frame_trans : Transform) (silent : Bool) : LookupResult :=
  if target_frame = source_frame then
    { success := true
      target_frame_trans := Transform.identityT
      diags := []
      queries := [] }
  else
    -- time_tf / duration_tf (lines 149-150) convert through seconds;
    -- the instant and width are unchanged
    let time_tf := time
    let duration_tf := duration
    let q1 := StoreQuery.canT target_frame source_frame time_tf duration_tf
    if buffer.canTransform target_frame source_frame time_tf duration_tf then
      let q2 := StoreQuery.lookup target_frame source_frame time_tf duration_tf
      match buffer.lookupTransform target_frame source_frame time_tf duration_tf with
      | some msg =>
          { success := true
            target_frame_trans := fromMsg msg
            diags := []
            queries := [q1, q2] }
      | none =>
          latestFallback buffer target_frame source_frame duration_tf
            target_frame_trans silent [q1, q2]
    else
      latestFallback buffer target_frame source_frame duration_tf
        target_frame_trans silent [q1]

/-- The overload of `lookupTransformSafe` without a tolerance parameter
(lines 206-218): delegates with `rclcpp::Duration(0, 0u)`. -/
noncomputable def lookupTransformSafeNoTolerance (buffer : Buffer)
    (target_frame source_frame : String) (time : ℚ)
    (target_frame_trans : Transform) (silent : Bool) : LookupResult :=
  lookupTransformSafe buffer target_frame source_frame time 0
    target_frame_trans silent

/-- Modelled from the spec: the fixed index-to-meaning binding of the
pose-state vector — "position X/Y/Z, orientation Roll/Pitch/Yaw, and
optionally higher-order derivatives not touched by this core" — whose
defining header (`filter_common.hpp`, giving `StateMemberX` … and
`STATE_SIZE`) is not among the sources.  The canonical layout places
X, Y, Z, Roll, Pitch, Yaw at indices 0-5 of a 15-entry state. -/
def STATE_SIZE : ℕ := 15

/-- Index of the X position entry. -/
def StateMemberX : Fin STATE_SIZE := ⟨0, by decide⟩

/-- Index of the Y position entry. -/
def StateMemberY : Fin STATE_SIZE := ⟨1, by decide⟩

/-- Index of the Z position entry. -/
def StateMemberZ : Fin STATE_SIZE := ⟨2, by decide⟩

/-- Index of the roll entry. -/
def StateMemberRoll : Fin STATE_SIZE := ⟨3, by decide⟩

/-- Index of the pitch entry. -/
def StateMemberPitch : Fin STATE_SIZE := ⟨4, by decide⟩

/-- Index of the yaw entry. -/
def StateMemberYaw : Fin STATE_SIZE := ⟨5, by decide⟩

/-- The pose-state vector (`Eigen::VectorXd` of size `STATE_SIZE`). -/
def StateVector : Type := Fin STATE_SIZE → ℝ

/-- `quatToRPY(quat, roll, pitch, yaw)` (lines 220-226): builds the
rotation matrix of the quaternion and decomposes it with `getRPY`;
returned here as the `(roll, pitch, yaw)` triple. -/
noncomputable def quatToRPY (quat : Quaternion) : ℝ × ℝ × ℝ :=
  (Matrix3x3.setRotation quat).getRPY

/-- `stateToTF(state, state_tf)` (lines 228-240): sets the origin from the
X/Y/Z entries and the rotation from the quaternion `setRPY(roll, pitch,
yaw)` of the Roll/Pitch/Yaw entries.  Both fields of the in-out transform
are overwritten, so the result is returned. -/
noncomputable def stateToTF (state : StateVector) : Transform :=
  { origin := ⟨state StateMemberX, state StateMemberY, state StateMemberZ⟩
    basis := Matrix3x3.setRotation
      (Quaternion.setRPY (state StateMemberRoll) (state StateMemberPitch)
        (state StateMemberYaw)) }

/-- `TFtoState(state_tf, state)` (lines 242-250): writes the origin into
the X/Y/Z entries and `quatToRPY` of `getRotation()` into the
Roll/Pitch/Yaw entries of the in-out state; the updated state is
returned. -/
noncomputable def TFtoState (state_tf : Transform) (state : StateVector) :
    StateVector := fun i =>
  if i = StateMemberX then state_tf.origin.x
  else if i = StateMemberY then state_tf.origin.y
  else if i = StateMemberZ then state_tf.origin.z
  else if i = StateMemberRoll then (quatToRPY state_tf.getRotation).1
  else if i = StateMemberPitch then (quatToRPY state_tf.getRotation).2.1
  else if i = StateMemberYaw then (quatToRPY state_tf.getRotation).2.2
  else state i

/-! ## Helper lemmas and witness fixtures for the frame resolver -/

/-- A store that can relate nothing (e.g. an empty transform buffer). -/
def emptyBuffer : Buffer :=
  ⟨fun _ _ _ _ => false, fun _ _ _ _ => none⟩

/-- A concrete stored relation used by witnesses and counterexamples. -/
def staleMsg : MsgTransform :=
  ⟨⟨1, 2, 3⟩, ⟨0, 0, 0, 1⟩⟩

/-- A store holding a relation only at the latest-available sentinel time:
exact-time queries fail, `tf2::TimePointZero` queries succeed. -/
def staleOnlyBuffer : Buffer :=
  ⟨fun _ _ time _ => decide (time = 0),
   fun _ _ time _ => if time = 0 then some staleMsg else none⟩

/-- The `silent` flag only selects the diagnostics of `latestFallback`;
status, transform and store queries are unchanged by it. -/
theorem latestFallback_silent_parts (buffer : Buffer)
    (target_frame source_frame : String) (duration_tf : ℚ)
    (trans : Transform) (qs : List StoreQuery) (s₁ s₂ : Bool) :
    (latestFallback buffer target_frame source_frame duration_tf trans s₁ qs).success =
      (latestFallback buffer target_frame source_frame duration_tf trans s₂ qs).success ∧
    (latestFallback buffer target_frame source_frame duration_tf trans s₁ qs).target_frame_trans =
      (latestFallback buffer target_frame source_frame duration_tf trans s₂ qs).target_frame_trans ∧
    (latestFallback buffer target_frame source_frame duration_tf trans s₁ qs).queries =
      (latestFallback buffer target_frame source_frame duration_tf trans s₂ qs).queries := by
  unfold latestFallback
  cases h3 : buffer.canTransform target_frame source_frame timePointZero duration_tf
  · simp
  · cases h4 : buffer.lookupTransform target_frame source_frame timePointZero duration_tf <;> simp

/-- If `latestFallback` fails, the in-out transform keeps its prior value. -/
theorem latestFallback_failure_trans (buffer : Buffer)
    (target_frame source_frame : String) (duration_tf : ℚ)
    (trans : Transform) (silent : Bool) (qs : List StoreQuery)
    (h : (latestFallback buffer target_frame source_frame duration_tf trans silent qs).success = false) :
    (latestFallback buffer target_frame source_frame duration_tf trans silent qs).target_frame_trans = trans := by
  revert h
  unfold latestFallback
  cases h3 : buffer.canTransform target_frame source_frame timePointZero duration_tf
  · simp
  · cases h4 : buffer.lookupTransform target_frame source_frame timePointZero duration_tf <;> simp

/-! ## Claim theorems for the frame resolver -/

/-- C2: for every store (including an empty one), every time, every
tolerance and every silent flag, if `target_frame` equals `source_frame`
then `lookupTransformSafe` returns success with the identity transform,
emits nothing, and issues no query to the store. -/
theorem lookupTransformSafe_identity_shortcut (buffer : Buffer)
    (target_frame source_frame : String) (time duration : ℚ)
    (target_frame_trans : Transform) (silent : Bool)
    (h : target_frame = source_frame) :
    lookupTransformSafe buffer target_frame source_frame time duration
      target_frame_trans silent =
      ⟨true, Transform.identityT, [], []⟩ := by
  simp [lookupTransformSafe, h]

/-- Witness for C2 at a concrete input: equal frames on an empty store. -/
theorem lookupTransformSafe_identity_shortcut_witness :
    lookupTransformSafe emptyBuffer "base_link" "base_link" 10 (1 / 10)
      Transform.identityT false = ⟨true, Transform.identityT, [], []⟩ :=
  lookupTransformSafe_identity_shortcut emptyBuffer "base_link" "base_link"
    10 (1 / 10) Transform.identityT false rfl

/-- C3: if the store can relate the frames at the requested time within
tolerance and the fetch succeeds, `lookupTransformSafe` returns exactly
that relation, and the only store queries issued are the two exact-time
ones — the latest-available fallback is never invoked. -/
theorem lookupTransformSafe_exact_time (buffer : Buffer)
    (target_frame source_frame : String) (time duration : ℚ)
    (target_frame_trans : Transform) (silent : Bool) (msg : MsgTransform)
    (hne : target_frame ≠ source_frame)
    (hcan : buffer.canTransform target_frame source_frame time duration = true)
    (hlook : buffer.lookupTransform target_frame source_frame time duration = some msg) :
    lookupTransformSafe buffer target_frame source_frame time duration
      target_frame_trans silent =
      ⟨true, fromMsg msg, [],
        [StoreQuery.canT target_frame source_frame time duration,
         StoreQuery.lookup target_frame source_frame time duration]⟩ := by
  simp [lookupTransformSafe, hne, hcan, hlook]

/-- Witness for C3 at a concrete input: a store that answers every query
with the stored relation. -/
theorem lookupTransformSafe_exact_time_witness :
    lookupTransformSafe ⟨fun _ _ _ _ => true, fun _ _ _ _ => some staleMsg⟩
      "odom" "base_link" 10 (1 / 10) Transform.identityT false =
      ⟨true, fromMsg staleMsg, [],
        [StoreQuery.canT "odom" "base_link" 10 (1 / 10),
         StoreQuery.lookup "odom" "base_link" 10 (1 / 10)]⟩ :=
  lookupTransformSafe_exact_time _ "odom" "base_link" 10 (1 / 10)
    Transform.identityT false staleMsg (by decide) rfl rfl

/-- Counterexample to C1 as stated: on a store where the requested time is
not resolvable but the latest-available relation is, the call (with
`silent = false`) succeeds with the stale relation yet hands **no**
warning request to the logging channel — the stale-substitution warning
of lines 179-182 is commented out in this source — contradicting the
claimed emission of a rate-limited stale-transform warning. -/
theorem lookupTransformSafe_stale_no_warning_counterexample :
    (lookupTransformSafe staleOnlyBuffer "odom" "base_link" 10 (1 / 10)
        Transform.identityT false).success = true ∧
    (lookupTransformSafe staleOnlyBuffer "odom" "base_link" 10 (1 / 10)
        Transform.identityT false).target_frame_trans = fromMsg staleMsg ∧
    (lookupTransformSafe staleOnlyBuffer "odom" "base_link" 10 (1 / 10)
        Transform.identityT false).diags = [] :=
  ⟨rfl, rfl, rfl⟩

/-- C1 as amended: when no relation at the requested time is resolvable
but the latest-available one is, `lookupTransformSafe` returns success
with that stale relation and hands no diagnostic at all to the logging
channel, whatever the silent flag. -/
theorem lookupTransformSafe_stale_fallback (buffer : Buffer)
    (target_frame source_frame : String) (time duration : ℚ)
    (target_frame_trans : Transform) (silent : Bool) (msg : MsgTransform)
    (hne : target_frame ≠ source_frame)
    (hcan : buffer.canTransform target_frame source_frame time duration = false)
    (hcan0 : buffer.canTransform target_frame source_frame timePointZero duration = true)
    (hlook0 : buffer.lookupTransform target_frame source_frame timePointZero duration = some msg) :
    (lookupTransformSafe buffer target_frame source_frame time duration
        target_frame_trans silent).success = true ∧
    (lookupTransformSafe buffer target_frame source_frame time duration
        target_frame_trans silent).target_frame_trans = fromMsg msg ∧
    (lookupTransformSafe buffer target_frame source_frame time duration
        target_frame_trans silent).diags = [] := by
  simp [lookupTransformSafe, latestFallback, hne, hcan, hcan0, hlook0]

/-- Witness for the amended C1 at a concrete input. -/
theorem lookupTransformSafe_stale_fallback_witness :
    (lookupTransformSafe staleOnlyBuffer "odom" "base_link" 10 (1 / 10)
        Transform.identityT true).success = true ∧
    (lookupTransformSafe staleOnlyBuffer "odom" "base_link" 10 (1 / 10)
        Transform.identityT true).target_frame_trans = fromMsg staleMsg ∧
    (lookupTransformSafe staleOnlyBuffer "odom" "base_link" 10 (1 / 10)
        Transform.identityT true).diags = [] :=
  lookupTransformSafe_stale_fallback staleOnlyBuffer "odom" "base_link"
    10 (1 / 10) Transform.identityT true staleMsg (by decide) rfl rfl rfl

/-- C4: when neither the exact-time nor the latest-available resolution
succeeds (each failing either at `canTransform` or with a thrown lookup),
`lookupTransformSafe` returns failure and — unless silent — hands the
logging channel exactly one throttled (3000 ms window) warning whose
message names both frame identifiers. -/
theorem lookupTransformSafe_total_failure (buffer : Buffer)
    (target_frame source_frame : String) (time duration : ℚ)
    (target_frame_trans : Transform) (silent : Bool)
    (hne : target_frame ≠ source_frame)
    (hexact : buffer.canTransform target_frame source_frame time duration = false ∨
      buffer.lookupTransform target_frame source_frame time duration = none)
    (hlatest : buffer.canTransform target_frame source_frame timePointZero duration = false ∨
      buffer.lookupTransform target_frame source_frame timePointZero duration = none) :
    (lookupTransformSafe buffer target_frame source_frame time duration
        target_frame_trans silent).success = false ∧
    (lookupTransformSafe buffer target_frame source_frame time duration
        target_frame_trans silent).diags =
      (if silent then [] else
        [⟨"Could not transform from " ++ source_frame ++ " to " ++ target_frame, 3000⟩]) := by
  rcases hexact with hcan | hlook <;> rcases hlatest with hcan0 | hlook0 <;>
    cases h : buffer.canTransform target_frame source_frame time duration <;>
    cases h0 : buffer.canTransform target_frame source_frame timePointZero duration <;>
    simp_all [lookupTransformSafe, latestFallback, failMessage]

/-- Witness for C4 at a concrete input: the empty store, not silent. -/
theorem lookupTransformSafe_total_failure_witness :
    (lookupTransformSafe emptyBuffer "odom" "base_link" 10 (1 / 10)
        Transform.identityT false).success = false ∧
    (lookupTransformSafe emptyBuffer "odom" "base_link" 10 (1 / 10)
        Transform.identityT false).diags =
      (if false then [] else
        [⟨"Could not transform from " ++ "base_link" ++ " to " ++ "odom", 3000⟩]) :=
  lookupTransformSafe_total_failure emptyBuffer "odom" "base_link" 10 (1 / 10)
    Transform.identityT false (by decide) (Or.inl rfl) (Or.inl rfl)

/-- C7: the returned status and the transform written to the output
parameter are identical for `silent = true` and `silent = false`; the
flag only selects whether diagnostics are handed to the logging channel. -/
theorem lookupTransformSafe_silent_independent (buffer : Buffer)
    (target_frame source_frame : String) (time duration : ℚ)
    (target_frame_trans : Transform) :
    (lookupTransformSafe buffer target_frame source_frame time duration
        target_frame_trans true).success =
      (lookupTransformSafe buffer target_frame source_frame time duration
        target_frame_trans false).success ∧
    (lookupTransformSafe buffer target_frame source_frame time duration
        target_frame_trans true).target_frame_trans =
      (lookupTransformSafe buffer target_frame source_frame time duration
        target_frame_trans false).target_frame_trans := by
  by_cases h : target_frame = source_frame
  · simp [lookupTransformSafe, h]
  · have key := fun qs =>
      latestFallback_silent_parts buffer target_frame source_frame duration
        target_frame_trans qs true false
    simp only [lookupTransformSafe, if_neg h]
    cases h1 : buffer.canTransform target_frame source_frame time duration
    · exact ⟨(key _).1, (key _).2.1⟩
    · cases h2 : buffer.lookupTransform target_frame source_frame time duration
      · exact ⟨(key _).1, (key _).2.1⟩
      · exact ⟨rfl, rfl⟩

/-- C8: the overload without a tolerance parameter returns the same status
and the same transform as the full overload called with a zero-duration
tolerance (it delegates with `rclcpp::Duration(0, 0u)`). -/
theorem lookupTransformSafeNoTolerance_eq_zero_duration (buffer : Buffer)
    (target_frame source_frame : String) (time : ℚ)
    (target_frame_trans : Transform) (silent : Bool) :
    (lookupTransformSafeNoTolerance buffer target_frame source_frame time
        target_frame_trans silent).success =
      (lookupTransformSafe buffer target_frame source_frame time 0
        target_frame_trans silent).success ∧
    (lookupTransformSafeNoTolerance buffer target_frame source_frame time
        target_frame_trans silent).target_frame_trans =
      (lookupTransformSafe buffer target_frame source_frame time 0
        target_frame_trans silent).target_frame_trans :=
  ⟨rfl, rfl⟩

/-- C10: whenever `lookupTransformSafe` returns failure for distinct
frames, the in-out parameter `target_frame_trans` is never written: the
result carries exactly the value it held before the call. -/
theorem lookupTransformSafe_failure_preserves_trans (buffer : Buffer)
    (target_frame source_frame : String) (time duration : ℚ)
    (target_frame_trans : Transform) (silent : Bool)
    (hne : target_frame ≠ source_frame)
    (hfail : (lookupTransformSafe buffer target_frame source_frame time duration
        target_frame_trans silent).success = false) :
    (lookupTransformSafe buffer target_frame source_frame time duration
        target_frame_trans silent).target_frame_trans = target_frame_trans := by
  revert hfail
  simp only [lookupTransformSafe, if_neg hne]
  cases h1 : buffer.canTransform target_frame source_frame time duration
  · exact latestFallback_failure_trans _ _ _ _ _ _ _
  · cases h2 : buffer.lookupTransform target_frame source_frame time duration
    · exact latestFallback_failure_trans _ _ _ _ _ _ _
    · intro hfail
      simp at hfail

/-- Witness for C10 at a concrete input: the empty store. -/
theorem lookupTransformSafe_failure_preserves_trans_witness :
    (lookupTransformSafe emptyBuffer "odom" "base_link" 10 (1 / 10)
        Transform.identityT false).target_frame_trans = Transform.identityT :=
  lookupTransformSafe_failure_preserves_trans emptyBuffer "odom" "base_link"
    10 (1 / 10) Transform.identityT false (by decide) rfl

/-- C9: `TFtoState` only writes the X, Y, Z, Roll, Pitch and Yaw entries of
the state vector; every other entry keeps its prior value. -/
theorem TFtoState_preserves_other_entries (state_tf : Transform)
    (state : StateVector) (i : Fin STATE_SIZE)
    (hx : i ≠ StateMemberX) (hy : i ≠ StateMemberY) (hz : i ≠ StateMemberZ)
    (hr : i ≠ StateMemberRoll) (hp : i ≠ StateMemberPitch)
    (hw : i ≠ StateMemberYaw) :
    TFtoState state_tf state i = state i := by
  simp [TFtoState, hx, hy, hz, hr, hp, hw]

/-- Witness for C9 at a concrete input: the entry at index 6 (the first
velocity entry of the 15-entry state) of the zero state is untouched. -/
theorem TFtoState_preserves_other_entries_witness :
    TFtoState Transform.identityT (fun _ => 0) ⟨6, by decide⟩ = 0 :=
  TFtoState_preserves_other_entries Transform.identityT (fun _ => 0)
    ⟨6, by decide⟩ (by decide) (by decide) (by decide) (by decide) (by decide)
    (by decide)

/-! ## Trigonometric groundwork for the pose-state codec -/

/-- Double-angle expansion of the sine at the half-angle form used by
`setRPY`. -/
theorem sin_full (x : ℝ) :
    Real.sin x = 2 * Real.sin (x * 0.5) * Real.cos (x * 0.5) := by
  have h := Real.sin_two_mul (x * 0.5)
  rw [show 2 * (x * 0.5) = x by ring] at h
  exact h

/-- Double-angle expansion of the cosine at the half-angle form used by
`setRPY`. -/
theorem cos_full (x : ℝ) :
    Real.cos x = Real.cos (x * 0.5) ^ 2 - Real.sin (x * 0.5) ^ 2 := by
  have h := Real.cos_two_mul' (x * 0.5)
  rw [show 2 * (x * 0.5) = x by ring] at h
  exact h

/-- `setRPY` always produces a unit quaternion. -/
theorem setRPY_length2 (roll pitch yaw : ℝ) :
    (Quaternion.setRPY roll pitch yaw).length2 = 1 := by
  have h1 := Real.sin_sq_add_cos_sq (roll * 0.5)
  have h2 := Real.sin_sq_add_cos_sq (pitch * 0.5)
  have h3 := Real.sin_sq_add_cos_sq (yaw * 0.5)
  simp only [Quaternion.setRPY, Quaternion.length2]
  linear_combination
    ((Real.sin (pitch * 0.5) ^ 2 + Real.cos (pitch * 0.5) ^ 2) *
      (Real.sin (yaw * 0.5) ^ 2 + Real.cos (yaw * 0.5) ^ 2)) * h1 +
    (Real.sin (yaw * 0.5) ^ 2 + Real.cos (yaw * 0.5) ^ 2) * h2 + h3

/-- On a unit quaternion, the `2 / length2` normalisation of
`setRotation` reduces to the familiar quadratic rotation-matrix
entries. -/
theorem setRotation_unit (q : Quaternion) (hq : q.length2 = 1) :
    Matrix3x3.setRotation q =
      { m00 := 1 - 2 * (q.y ^ 2 + q.z ^ 2)
        m01 := 2 * (q.x * q.y - q.w * q.z)
        m02 := 2 * (q.x * q.z + q.w * q.y)
        m10 := 2 * (q.x * q.y + q.w * q.z)
        m11 := 1 - 2 * (q.x ^ 2 + q.z ^ 2)
        m12 := 2 * (q.y * q.z - q.w * q.x)
        m20 := 2 * (q.x * q.z - q.w * q.y)
        m21 := 2 * (q.y * q.z + q.w * q.x)
        m22 := 1 - 2 * (q.x ^ 2 + q.y ^ 2) } := by
  simp only [Matrix3x3.setRotation, hq, Matrix3x3.mk.injEq]
  norm_num
  refine ⟨by ring, by ring, by ring, by ring, by ring, by ring, by ring,
    by ring, by ring⟩

/-- The rotation matrix of the `setRPY` quaternion, written with
full-angle sines and cosines: it is the classical Z-Y-X Euler matrix. -/
theorem setRotation_setRPY (roll pitch yaw : ℝ) :
    Matrix3x3.setRotation (Quaternion.setRPY roll pitch yaw) =
      { m00 := Real.cos yaw * Real.cos pitch
        m01 := Real.cos yaw * Real.sin pitch * Real.sin roll - Real.sin yaw * Real.cos roll
        m02 := Real.cos yaw * Real.sin pitch * Real.cos roll + Real.sin yaw * Real.sin roll
        m10 := Real.sin yaw * Real.cos pitch
        m11 := Real.sin yaw * Real.sin pitch * Real.sin roll + Real.cos yaw * Real.cos roll
        m12 := Real.sin yaw * Real.sin pitch * Real.cos roll - Real.cos yaw * Real.sin roll
        m20 := -Real.sin pitch
        m21 := Real.cos pitch * Real.sin roll
        m22 := Real.cos pitch * Real.cos roll } := by
  have h1 := Real.sin_sq_add_cos_sq (roll * 0.5)
  have h2 := Real.sin_sq_add_cos_sq (pitch * 0.5)
  have h3 := Real.sin_sq_add_cos_sq (yaw * 0.5)
  rw [setRotation_unit _ (setRPY_length2 roll pitch yaw)]
  rw [sin_full roll, sin_full pitch, sin_full yaw, cos_full roll,
    cos_full pitch, cos_full yaw]
  simp only [Quaternion.setRPY, Matrix3x3.mk.injEq]
  refine ⟨?_, ?_, ?_, ?_, ?_, ?_, ?_, ?_, ?_⟩
  · linear_combination
      (-2 * (Real.sin (pitch * 0.5) ^ 2 * Real.cos (yaw * 0.5) ^ 2 +
        Real.cos (pitch * 0.5) ^ 2 * Real.sin (yaw * 0.5) ^ 2)) * h1 +
      (-(Real.sin (yaw * 0.5) ^ 2 + Real.cos (yaw * 0.5) ^ 2)) * h2 + (-1) * h3
  · linear_combination
      (2 * Real.sin (yaw * 0.5) * Real.cos (yaw * 0.5) *
        (Real.sin (roll * 0.5) ^ 2 - Real.cos (roll * 0.5) ^ 2)) * h2
  · linear_combination
      (4 * Real.sin (roll * 0.5) * Real.cos (roll * 0.5) *
        Real.sin (yaw * 0.5) * Real.cos (yaw * 0.5)) * h2
  · linear_combination
      (2 * Real.sin (yaw * 0.5) * Real.cos (yaw * 0.5) *
        (Real.cos (pitch * 0.5) ^ 2 - Real.sin (pitch * 0.5) ^ 2)) * h1
  · linear_combination
      (-(Real.sin (pitch * 0.5) ^ 2 + Real.cos (pitch * 0.5) ^ 2) *
        (Real.sin (yaw * 0.5) ^ 2 + Real.cos (yaw * 0.5) ^ 2)) * h1 +
      ((Real.sin (roll * 0.5) ^ 2 * Real.sin (yaw * 0.5) ^ 2 +
        Real.cos (roll * 0.5) ^ 2 * Real.cos (yaw * 0.5) ^ 2 -
        Real.sin (roll * 0.5) ^ 2 * Real.cos (yaw * 0.5) ^ 2 -
        Real.cos (roll * 0.5) ^ 2 * Real.sin (yaw * 0.5) ^ 2) -
        (Real.sin (yaw * 0.5) ^ 2 + Real.cos (yaw * 0.5) ^ 2)) * h2 + (-1) * h3
  · linear_combination
      (2 * Real.sin (roll * 0.5) * Real.cos (roll * 0.5) *
        (Real.sin (yaw * 0.5) ^ 2 - Real.cos (yaw * 0.5) ^ 2)) * h2
  · linear_combination
      (-2 * Real.sin (pitch * 0.5) * Real.cos (pitch * 0.5) *
        (Real.sin (yaw * 0.5) ^ 2 + Real.cos (yaw * 0.5) ^ 2)) * h1 +
      (-2 * Real.sin (pitch * 0.5) * Real.cos (pitch * 0.5)) * h3
  · linear_combination
      (2 * Real.sin (roll * 0.5) * Real.cos (roll * 0.5) *
        (Real.cos (pitch * 0.5) ^ 2 - Real.sin (pitch * 0.5) ^ 2)) * h3
  · linear_combination
      (-(Real.sin (pitch * 0.5) ^ 2 + Real.cos (pitch * 0.5) ^ 2)) * h1 + (-1) * h2 +
      (-2 * (Real.sin (roll * 0.5) ^ 2 * Real.cos (pitch * 0.5) ^ 2 +
        Real.cos (roll * 0.5) ^ 2 * Real.sin (pitch * 0.5) ^ 2)) * h3

/-- `atan2` inverts the sine/cosine pair on the principal interval. -/
theorem atan2_sin_cos {θ : ℝ} (h : θ ∈ Set.Ioc (-Real.pi) Real.pi) :
    atan2 (Real.sin θ) (Real.cos θ) = θ := by
  have heq : (⟨Real.cos θ, Real.sin θ⟩ : ℂ) =
      Complex.cos θ + Complex.sin θ * Complex.I := by
    apply Complex.ext <;> simp [Complex.cos_ofReal_re, Complex.sin_ofReal_re]
  unfold atan2
  rw [heq]
  exact Complex.arg_cos_add_sin_mul_I h

/-- `getRPY` recovers the Euler angles from the Z-Y-X Euler matrix when
the pitch is away from the gimbal-lock singularity and roll and yaw are
principal. -/
theorem getRPY_euler (roll pitch yaw : ℝ)
    (hp : pitch ∈ Set.Ioo (-(Real.pi / 2)) (Real.pi / 2))
    (hr : roll ∈ Set.Ioc (-Real.pi) Real.pi)
    (hy : yaw ∈ Set.Ioc (-Real.pi) Real.pi) :
    Matrix3x3.getRPY
      { m00 := Real.cos yaw * Real.cos pitch
        m01 := Real.cos yaw * Real.sin pitch * Real.sin roll - Real.sin yaw * Real.cos roll
        m02 := Real.cos yaw * Real.sin pitch * Real.cos roll + Real.sin yaw * Real.sin roll
        m10 := Real.sin yaw * Real.cos pitch
        m11 := Real.sin yaw * Real.sin pitch * Real.sin roll + Real.cos yaw * Real.cos roll
        m12 := Real.sin yaw * Real.sin pitch * Real.cos roll - Real.cos yaw * Real.sin roll
        m20 := -Real.sin pitch
        m21 := Real.cos pitch * Real.sin roll
        m22 := Real.cos pitch * Real.cos roll } = (roll, pitch, yaw) := by
  have hc : 0 < Real.cos pitch := Real.cos_pos_of_mem_Ioo hp
  have hs := Real.sin_sq_add_cos_sq pitch
  have habs : ¬ (1 ≤ |(-Real.sin pitch : ℝ)|) := by
    rw [not_le, abs_lt]
    constructor <;>
      nlinarith [sq_nonneg (Real.sin pitch + 1), sq_nonneg (Real.sin pitch - 1),
        mul_pos hc hc]
  have harcsin : -Real.arcsin (-Real.sin pitch) = pitch := by
    rw [Real.arcsin_neg, neg_neg,
      Real.arcsin_sin (le_of_lt hp.1) (le_of_lt hp.2)]
  unfold Matrix3x3.getRPY
  rw [if_neg habs]
  simp only [harcsin]
  have hcc : Real.cos pitch ≠ 0 := ne_of_gt hc
  have e1 : Real.cos pitch * Real.sin roll / Real.cos pitch = Real.sin roll := by
    field_simp
  have e2 : Real.cos pitch * Real.cos roll / Real.cos pitch = Real.cos roll := by
    field_simp
  have e3 : Real.sin yaw * Real.cos pitch / Real.cos pitch = Real.sin yaw := by
    field_simp
  have e4 : Real.cos yaw * Real.cos pitch / Real.cos pitch = Real.cos yaw := by
    field_simp
  rw [e1, e2, e3, e4, atan2_sin_cos hr, atan2_sin_cos hy]

/-- `√(4 v²) = 2 |v|`, the shape of every square root taken inside
`getRotation`. -/
theorem sqrt_four_sq (v : ℝ) : Real.sqrt (4 * v ^ 2) = 2 * |v| := by
  rw [show (4 * v ^ 2 : ℝ) = (2 * |v|) ^ 2 by rw [mul_pow, sq_abs]; norm_num,
    Real.sqrt_sq (by positivity)]

/-- Off-diagonal component shape of `getRotation`: `4 u v / (4 |v|)`
equals `sign v * u`. -/
theorem offdiag_comp (u v : ℝ) (hv : v ≠ 0) :
    4 * (u * v) * (0.5 / (2 * |v|)) = v / |v| * u := by
  have hva : |v| ≠ 0 := abs_ne_zero.mpr hv
  field_simp
  ring

/-- Diagonal component shape of `getRotation`: `|v|` equals
`sign v * v`. -/
theorem diag_comp (v : ℝ) (hv : v ≠ 0) :
    2 * |v| * 0.5 = v / |v| * v := by
  have hva : |v| ≠ 0 := abs_ne_zero.mpr hv
  field_simp
  rw [show (2:ℝ) * |v| * 0.5 * |v| = |v| ^ 2 by ring, sq_abs]
  ring

/-- `getRotation` applied to the rotation matrix of a unit quaternion
recovers that quaternion up to a non-zero (in fact `±1`) scale, in every
branch of its largest-diagonal-entry case split. -/
theorem getRotation_setRotation (q : Quaternion) (hq : q.length2 = 1) :
    ∃ c : ℝ, c ≠ 0 ∧
      (Matrix3x3.setRotation q).getRotation = Quaternion.scale c q := by
  obtain ⟨x, y, z, w⟩ := q
  simp only [Quaternion.length2] at hq
  rw [setRotation_unit ⟨x, y, z, w⟩ hq]
  unfold Matrix3x3.getRotation
  simp only [Quaternion.scale]
  split_ifs with hA hB hC hD
  · have hw : w ≠ 0 := by
      intro h
      rw [h] at hq
      nlinarith [hA, hq]
    refine ⟨w / |w|, div_ne_zero hw (abs_ne_zero.mpr hw), ?_⟩
    have htr : (1 - 2 * (y ^ 2 + z ^ 2)) + (1 - 2 * (x ^ 2 + z ^ 2)) +
        (1 - 2 * (x ^ 2 + y ^ 2)) + 1 = 4 * w ^ 2 := by linarith
    rw [htr, sqrt_four_sq]
    simp only [Quaternion.mk.injEq]
    refine ⟨?_, ?_, ?_, ?_⟩
    · rw [show 2 * (y * z + w * x) - 2 * (y * z - w * x) = 4 * (x * w) by ring,
        offdiag_comp x w hw]
    · rw [show 2 * (x * z + w * y) - 2 * (x * z - w * y) = 4 * (y * w) by ring,
        offdiag_comp y w hw]
    · rw [show 2 * (x * y + w * z) - 2 * (x * y - w * z) = 4 * (z * w) by ring,
        offdiag_comp z w hw]
    · exact diag_comp w hw
  · have hz : z ≠ 0 := by
      intro h
      rw [h] at hC
      nlinarith [hB, hC, sq_nonneg x, sq_nonneg y]
    refine ⟨z / |z|, div_ne_zero hz (abs_ne_zero.mpr hz), ?_⟩
    have htr : (1 - 2 * (x ^ 2 + y ^ 2)) - (1 - 2 * (y ^ 2 + z ^ 2)) -
        (1 - 2 * (x ^ 2 + z ^ 2)) + 1 = 4 * z ^ 2 := by ring
    rw [htr, sqrt_four_sq]
    simp only [Quaternion.mk.injEq]
    refine ⟨?_, ?_, ?_, ?_⟩
    · rw [show 2 * (x * z + w * y) + 2 * (x * z - w * y) = 4 * (x * z) by ring,
        offdiag_comp x z hz]
    · rw [show 2 * (y * z - w * x) + 2 * (y * z + w * x) = 4 * (y * z) by ring,
        offdiag_comp y z hz]
    · exact diag_comp z hz
    · rw [show 2 * (x * y + w * z) - 2 * (x * y - w * z) = 4 * (w * z) by ring,
        offdiag_comp w z hz]
  · have hy : y ≠ 0 := by
      intro h
      rw [h] at hB
      nlinarith [hB, sq_nonneg x]
    refine ⟨y / |y|, div_ne_zero hy (abs_ne_zero.mpr hy), ?_⟩
    have htr : (1 - 2 * (x ^ 2 + z ^ 2)) - (1 - 2 * (x ^ 2 + y ^ 2)) -
        (1 - 2 * (y ^ 2 + z ^ 2)) + 1 = 4 * y ^ 2 := by ring
    rw [htr, sqrt_four_sq]
    simp only [Quaternion.mk.injEq]
    refine ⟨?_, ?_, ?_, ?_⟩
    · rw [show 2 * (x * y - w * z) + 2 * (x * y + w * z) = 4 * (x * y) by ring,
        offdiag_comp x y hy]
    · exact diag_comp y hy
    · rw [show 2 * (y * z + w * x) + 2 * (y * z - w * x) = 4 * (z * y) by ring,
        offdiag_comp z y hy]
    · rw [show 2 * (x * z + w * y) - 2 * (x * z - w * y) = 4 * (w * y) by ring,
        offdiag_comp w y hy]
  · have hz : z ≠ 0 := by
      intro h
      rw [h] at hD
      nlinarith [hD, sq_nonneg y]
    refine ⟨z / |z|, div_ne_zero hz (abs_ne_zero.mpr hz), ?_⟩
    have htr : (1 - 2 * (x ^ 2 + y ^ 2)) - (1 - 2 * (y ^ 2 + z ^ 2)) -
        (1 - 2 * (x ^ 2 + z ^ 2)) + 1 = 4 * z ^ 2 := by ring
    rw [htr, sqrt_four_sq]
    simp only [Quaternion.mk.injEq]
    refine ⟨?_, ?_, ?_, ?_⟩
    · rw [show 2 * (x * z + w * y) + 2 * (x * z - w * y) = 4 * (x * z) by ring,
        offdiag_comp x z hz]
    · rw [show 2 * (y * z - w * x) + 2 * (y * z + w * x) = 4 * (y * z) by ring,
        offdiag_comp y z hz]
    · exact diag_comp z hz
    · rw [show 2 * (x * y + w * z) - 2 * (x * y - w * z) = 4 * (w * z) by ring,
        offdiag_comp w z hz]
  · have hx : x ≠ 0 := by
      intro h
      rw [h] at hB hD
      push_neg at hA hB hD
      simp at hB hD
      nlinarith [hA, hB, hD, hq, sq_nonneg w]
    refine ⟨x / |x|, div_ne_zero hx (abs_ne_zero.mpr hx), ?_⟩
    have htr : (1 - 2 * (y ^ 2 + z ^ 2)) - (1 - 2 * (x ^ 2 + z ^ 2)) -
        (1 - 2 * (x ^ 2 + y ^ 2)) + 1 = 4 * x ^ 2 := by ring
    rw [htr, sqrt_four_sq]
    simp only [Quaternion.mk.injEq]
    refine ⟨?_, ?_, ?_, ?_⟩
    · exact diag_comp x hx
    · rw [show 2 * (x * y + w * z) + 2 * (x * y - w * z) = 4 * (y * x) by ring,
        offdiag_comp y x hx]
    · rw [show 2 * (x * z - w * y) + 2 * (x * z + w * y) = 4 * (z * x) by ring,
        offdiag_comp z x hx]
    · rw [show 2 * (y * z + w * x) - 2 * (y * z - w * x) = 4 * (w * x) by ring,
        offdiag_comp w x hx]

/-- Scaling a quaternion scales its squared norm quadratically. -/
theorem scale_length2 (c : ℝ) (q : Quaternion) :
    (Quaternion.scale c q).length2 = c ^ 2 * q.length2 := by
  simp only [Quaternion.scale, Quaternion.length2]
  ring

/-- `setRotation` is invariant under non-zero quaternion scaling: its
`2 / length2` normalisation cancels the scale. -/
theorem setRotation_scale (c : ℝ) (hc : c ≠ 0) (q : Quaternion) :
    Matrix3x3.setRotation (Quaternion.scale c q) = Matrix3x3.setRotation q := by
  unfold Matrix3x3.setRotation
  rw [scale_length2]
  rcases eq_or_ne q.length2 0 with hd | hd
  · simp [hd, Quaternion.scale]
  · simp only [Quaternion.scale, Matrix3x3.mk.injEq]
    have hc2 : c ^ 2 * q.length2 ≠ 0 := mul_ne_zero (pow_ne_zero 2 hc) hd
    field_simp
    refine ⟨by ring, by ring, by ring, by ring, by ring, by ring, by ring,
      by ring, by ring⟩

/-- The full decomposition chain of `TFtoState ∘ stateToTF` on the angle
components: matrix of `setRPY`, then `getRotation`, then the matrix
again, then `getRPY`, recovers principal Euler angles exactly. -/
theorem roundtrip_rpy (roll pitch yaw : ℝ)
    (hp : pitch ∈ Set.Ioo (-(Real.pi / 2)) (Real.pi / 2))
    (hr : roll ∈ Set.Ioc (-Real.pi) Real.pi)
    (hy : yaw ∈ Set.Ioc (-Real.pi) Real.pi) :
    Matrix3x3.getRPY
      (Matrix3x3.setRotation
        ((Matrix3x3.setRotation (Quaternion.setRPY roll pitch yaw)).getRotation)) =
      (roll, pitch, yaw) := by
  obtain ⟨c, hc, hrot⟩ :=
    getRotation_setRotation (Quaternion.setRPY roll pitch yaw)
      (setRPY_length2 roll pitch yaw)
  rw [hrot, setRotation_scale c hc, setRotation_setRPY]
  exact getRPY_euler roll pitch yaw hp hr hy

/-! ## Spec-side Euler convention (for the refinement claim) -/

/-- The spec's "roll about X": the elementary rotation matrix about the
X axis. -/
noncomputable def rotX (θ : ℝ) : Matrix3x3 :=
  ⟨1, 0, 0,
   0, Real.cos θ, -Real.sin θ,
   0, Real.sin θ, Real.cos θ⟩

/-- The spec's "pitch about Y": the elementary rotation matrix about the
Y axis. -/
noncomputable def rotY (θ : ℝ) : Matrix3x3 :=
  ⟨Real.cos θ, 0, Real.sin θ,
   0, 1, 0,
   -Real.sin θ, 0, Real.cos θ⟩

/-- The spec's "yaw about Z": the elementary rotation matrix about the
Z axis. -/
noncomputable def rotZ (θ : ℝ) : Matrix3x3 :=
  ⟨Real.cos θ, -Real.sin θ, 0,
   Real.sin θ, Real.cos θ, 0,
   0, 0, 1⟩

/-- The composed spec convention — roll about X first, then pitch about
Y, then yaw about Z — written out entrywise. -/
theorem eulerZYX_entries (roll pitch yaw : ℝ) :
    (rotZ yaw).mul ((rotY pitch).mul (rotX roll)) =
      { m00 := Real.cos yaw * Real.cos pitch
        m01 := Real.cos yaw * Real.sin pitch * Real.sin roll - Real.sin yaw * Real.cos roll
        m02 := Real.cos yaw * Real.sin pitch * Real.cos roll + Real.sin yaw * Real.sin roll
        m10 := Real.sin yaw * Real.cos pitch
        m11 := Real.sin yaw * Real.sin pitch * Real.sin roll + Real.cos yaw * Real.cos roll
        m12 := Real.sin yaw * Real.sin pitch * Real.cos roll - Real.cos yaw * Real.sin roll
        m20 := -Real.sin pitch
        m21 := Real.cos pitch * Real.sin roll
        m22 := Real.cos pitch * Real.cos roll } := by
  simp only [Matrix3x3.mul, rotX, rotY, rotZ, Matrix3x3.mk.injEq]
  refine ⟨by ring, by ring, by ring, by ring, by ring, by ring, by ring,
    by ring, by ring⟩

/-- C6: `stateToTF` always succeeds (it is total, with no validation of
angle ranges), its translation equals the state's X/Y/Z entries, and its
orientation realises exactly the spec's fixed Euler convention: the
rotation of the quaternion it builds is the composition roll-about-X,
then pitch-about-Y, then yaw-about-Z. -/
theorem stateToTF_spec (state : StateVector) :
    (stateToTF state).origin =
      ⟨state StateMemberX, state StateMemberY, state StateMemberZ⟩ ∧
    (stateToTF state).basis =
      (rotZ (state StateMemberYaw)).mul
        ((rotY (state StateMemberPitch)).mul (rotX (state StateMemberRoll))) := by
  refine ⟨rfl, ?_⟩
  show Matrix3x3.setRotation
      (Quaternion.setRPY (state StateMemberRoll) (state StateMemberPitch)
        (state StateMemberYaw)) = _
  rw [setRotation_setRPY]
  exact (eulerZYX_entries _ _ _).symm

/-- The all-zero state vector (used as witness input). -/
def zeroState : StateVector := fun _ => 0

/-- A state whose roll entry is `2π` (outside the principal interval) and
whose other entries, the pitch in particular, are zero. -/
noncomputable def badRollState : StateVector := fun i =>
  if i = StateMemberRoll then 2 * Real.pi else 0

/-- C5 as amended: for a state whose pitch lies strictly between -80° and
+80° (i.e. in `(-4π/9, 4π/9)`) **and whose roll and yaw lie in the
principal interval `(-π, π]`**, converting to a transform and back
reproduces the X/Y/Z and Roll/Pitch/Yaw entries exactly (the idealised
real-arithmetic form of "within floating-point tolerance"). -/
theorem TFtoState_stateToTF_roundtrip (state : StateVector)
    (hpitch : state StateMemberPitch ∈ Set.Ioo (-(4 * Real.pi / 9)) (4 * Real.pi / 9))
    (hroll : state StateMemberRoll ∈ Set.Ioc (-Real.pi) Real.pi)
    (hyaw : state StateMemberYaw ∈ Set.Ioc (-Real.pi) Real.pi) :
    TFtoState (stateToTF state) state StateMemberX = state StateMemberX ∧
    TFtoState (stateToTF state) state StateMemberY = state StateMemberY ∧
    TFtoState (stateToTF state) state StateMemberZ = state StateMemberZ ∧
    TFtoState (stateToTF state) state StateMemberRoll = state StateMemberRoll ∧
    TFtoState (stateToTF state) state StateMemberPitch = state StateMemberPitch ∧
    TFtoState (stateToTF state) state StateMemberYaw = state StateMemberYaw := by
  have hp' : state StateMemberPitch ∈ Set.Ioo (-(Real.pi / 2)) (Real.pi / 2) := by
    obtain ⟨h1, h2⟩ := hpitch
    have hpi := Real.pi_pos
    exact ⟨by linarith, by linarith⟩
  have key := roundtrip_rpy (state StateMemberRoll) (state StateMemberPitch)
    (state StateMemberYaw) hp' hroll hyaw
  have hq : quatToRPY (Transform.getRotation (stateToTF state)) =
      (state StateMemberRoll, state StateMemberPitch, state StateMemberYaw) := by
    simp only [quatToRPY, Transform.getRotation, stateToTF]
    exact key
  refine ⟨rfl, rfl, rfl, ?_, ?_, ?_⟩
  · show (quatToRPY (Transform.getRotation (stateToTF state))).1 = _
    rw [hq]
  · show (quatToRPY (Transform.getRotation (stateToTF state))).2.1 = _
    rw [hq]
  · show (quatToRPY (Transform.getRotation (stateToTF state))).2.2 = _
    rw [hq]

/-- Witness for the amended C5 at a concrete input: the zero state. -/
theorem TFtoState_stateToTF_roundtrip_witness :
    TFtoState (stateToTF zeroState) zeroState StateMemberX = zeroState StateMemberX ∧
    TFtoState (stateToTF zeroState) zeroState StateMemberY = zeroState StateMemberY ∧
    TFtoState (stateToTF zeroState) zeroState StateMemberZ = zeroState StateMemberZ ∧
    TFtoState (stateToTF zeroState) zeroState StateMemberRoll = zeroState StateMemberRoll ∧
    TFtoState (stateToTF zeroState) zeroState StateMemberPitch = zeroState StateMemberPitch ∧
    TFtoState (stateToTF zeroState) zeroState StateMemberYaw = zeroState StateMemberYaw :=
  TFtoState_stateToTF_roundtrip zeroState
    ⟨neg_lt_zero.mpr (by positivity), by positivity⟩
    ⟨neg_lt_zero.mpr Real.pi_pos, Real.pi_pos.le⟩
    ⟨neg_lt_zero.mpr Real.pi_pos, Real.pi_pos.le⟩

/-- Counterexample to C5 as stated: the state with roll `2π` and pitch
`0` satisfies the claim's only hypothesis (pitch strictly between -80°
and +80°), yet the round trip returns roll `0`, which misses the original
roll by `2π` — far beyond the claimed `1e-9` tolerance.  The claim omits
the necessary principality restriction on roll and yaw. -/
theorem TFtoState_stateToTF_roundtrip_counterexample :
    (-(4 * Real.pi / 9) < badRollState StateMemberPitch ∧
      badRollState StateMemberPitch < 4 * Real.pi / 9) ∧
    ¬ |TFtoState (stateToTF badRollState) badRollState StateMemberRoll -
        badRollState StateMemberRoll| ≤ 1 / 1000000000 := by
  have hbP : badRollState StateMemberPitch = 0 := by
    simp [badRollState, StateMemberPitch, StateMemberRoll]
  have hbY : badRollState StateMemberYaw = 0 := by
    simp [badRollState, StateMemberYaw, StateMemberRoll]
  have hbR : badRollState StateMemberRoll = 2 * Real.pi := by
    simp [badRollState]
  have hq : Quaternion.setRPY (2 * Real.pi) 0 0 = ⟨0, 0, 0, -1⟩ := by
    unfold Quaternion.setRPY
    rw [show (2 * Real.pi * 0.5 : ℝ) = Real.pi by ring]
    norm_num [Real.sin_pi, Real.cos_pi]
  have hM : Matrix3x3.setRotation ⟨0, 0, 0, -1⟩ = ⟨1, 0, 0, 0, 1, 0, 0, 0, 1⟩ := by
    unfold Matrix3x3.setRotation Quaternion.length2
    norm_num
  have hMi : Matrix3x3.setRotation ⟨0, 0, 0, 1⟩ = ⟨1, 0, 0, 0, 1, 0, 0, 0, 1⟩ := by
    unfold Matrix3x3.setRotation Quaternion.length2
    norm_num
  have hg : Matrix3x3.getRotation ⟨1, 0, 0, 0, 1, 0, 0, 0, 1⟩ = ⟨0, 0, 0, 1⟩ := by
    unfold Matrix3x3.getRotation
    rw [if_pos (by norm_num : (0:ℝ) < 1 + 1 + 1)]
    rw [show (1 + 1 + 1 + 1 : ℝ) = 2 ^ 2 by norm_num,
      Real.sqrt_sq (by norm_num : (0:ℝ) ≤ 2)]
    norm_num
  have harg : atan2 0 1 = 0 := by
    unfold atan2
    rw [show (⟨1, 0⟩ : ℂ) = 1 from Complex.ext (by simp) (by simp)]
    exact Complex.arg_one
  have hrpy : Matrix3x3.getRPY ⟨1, 0, 0, 0, 1, 0, 0, 0, 1⟩ = (0, 0, 0) := by
    unfold Matrix3x3.getRPY
    rw [if_neg (by norm_num)]
    norm_num [Real.arcsin_zero, Real.cos_zero, harg]
  have hsb : (stateToTF badRollState).basis = Matrix3x3.setRotation ⟨0, 0, 0, -1⟩ := by
    show Matrix3x3.setRotation
        (Quaternion.setRPY (badRollState StateMemberRoll)
          (badRollState StateMemberPitch) (badRollState StateMemberYaw)) = _
    rw [hbR, hbP, hbY, hq]
  have hqr : quatToRPY (Transform.getRotation (stateToTF badRollState)) = (0, 0, 0) := by
    simp only [quatToRPY, Transform.getRotation]
    rw [hsb, hM, hg, hMi, hrpy]
  have hentry : TFtoState (stateToTF badRollState) badRollState StateMemberRoll =
      (quatToRPY (Transform.getRotation (stateToTF badRollState))).1 := rfl
  refine ⟨⟨?_, ?_⟩, ?_⟩
  · rw [hbP]
    exact neg_lt_zero.mpr (by positivity)
  · rw [hbP]
    positivity
  · rw [hentry, hqr, hbR]
    simp only [not_le]
    rw [zero_sub, abs_neg, abs_of_pos (by positivity)]
    nlinarith [Real.pi_gt_three]

end RobotLocalization
